import Mathlib

/-
Verification of the HugoToJSON front-matter pipeline.

Shallow embedding of src/page_index.rs and src/traverse/traverser.rs.
The directory walk, thread pool, file IO and the external collaborator
libraries (the markdown stripper and the two metadata-tree parsing
libraries) are outside the embedding: the collaborators appear as
function parameters, exactly as the specification treats them
(opaque functions from text to a key/value tree, and text to text).

Machine strings are modelled as Lean String values; the handful of
Rust primitive string operations the source uses (trim, split with a
string pattern, lines, to_lowercase) are re-implemented over the
underlying character list so that every definition is executable by
the kernel.  They model the Rust behaviour on the ASCII inputs the
program manipulates (Rust trims and lowercases by full Unicode rules;
the difference is irrelevant to every statement below, which never
fixes exotic characters).
-/

namespace HugoToJson

namespace RustStr

/-- Whitespace test used by trimming, modelling Rust char::is_whitespace
on the ASCII range. -/
def isWhitespaceChar (c : Char) : Bool :=
  c = ' ' || c = '\t' || c = '\r' || c = '\n'

/-- Drop whitespace from both ends of a character list. -/
def trimChars (cs : List Char) : List Char :=
  ((cs.dropWhile isWhitespaceChar).reverse.dropWhile isWhitespaceChar).reverse

/-- Models Rust str::trim. -/
def trim (s : String) : String :=
  String.mk (trimChars s.data)

/-- Models Rust str::is_empty. -/
def isEmpty (s : String) : Bool :=
  s.data.isEmpty

/-- Worker for splitOn: leftmost, non-overlapping occurrences of a
non-empty separator; fuel is at least the length of the remaining input
plus one, so the fuel never runs out before the input does. -/
def splitGo (sep : List Char) : Nat → List Char → List Char → List (List Char)
  | 0, _, acc => [acc.reverse]
  | _ + 1, [], acc => [acc.reverse]
  | fuel + 1, c :: cs, acc =>
    if sep.isPrefixOf (c :: cs) then
      acc.reverse :: splitGo sep fuel ((c :: cs).drop sep.length) []
    else
      splitGo sep fuel cs (c :: acc)

/-- Models Rust str::split with a non-empty string pattern, collected to a
vector: the pieces between leftmost non-overlapping occurrences of the
separator, with empty pieces kept. -/
def splitOn (s sep : String) : List String :=
  (splitGo sep.data (s.data.length + 1) s.data []).map String.mk

/-- ASCII lowercase of one character, modelling what Rust
str::to_lowercase does on ASCII input. -/
def lowerChar (c : Char) : Char :=
  if 'A' ≤ c && c ≤ 'Z' then Char.ofNat (c.toNat + 32) else c

/-- Models Rust str::to_lowercase. -/
def toLowercase (s : String) : String :=
  String.mk (s.data.map lowerChar)

/-- Models Rust str::lines: split at newline characters, a final line
ending produces no trailing empty line, and a trailing carriage return
is stripped from each line. -/
def lines (s : String) : List String :=
  let ls := splitOn s "\n"
  let ls := if ls.getLast? = some "" then ls.dropLast else ls
  ls.map (fun l => if l.data.getLast? = some '\r' then String.mk l.data.dropLast else l)

end RustStr

/-- The key/value tree produced by the two external metadata parsers
(toml::Value and yaml_rust::Yaml), restricted to the shapes the program
inspects: strings, booleans, integers (standing for any non-string,
non-boolean scalar), arrays and tables. -/
inductive Value where
  | str (s : String)
  | boolean (b : Bool)
  | integer (n : Int)
  | arr (xs : List Value)
  | table (kvs : List (String × Value))

/-- Association-list lookup used to model both toml Value::get on a table
and yaml_rust hash indexing. -/
def lookupKey (key : String) : List (String × Value) → Option Value
  | [] => none
  | (k, v) :: rest => if k = key then some v else lookupKey key rest

/-- Models toml Value::get and yaml_rust indexing followed by an as_xxx
conversion: a lookup that yields a value only on a table. -/
def Value.get (v : Value) (key : String) : Option Value :=
  match v with
  | .table kvs => lookupKey key kvs
  | _ => none

/-- Models toml Value::as_str / yaml Yaml::as_str. -/
def Value.as_str : Value → Option String
  | .str s => some s
  | _ => none

/-- Models toml Value::as_bool / yaml Yaml::as_bool. -/
def Value.as_bool : Value → Option Bool
  | .boolean b => some b
  | _ => none

/-- Models toml Value::as_array / yaml Yaml::as_vec. -/
def Value.as_array : Value → Option (List Value)
  | .arr xs => some xs
  | _ => none

/-- Embeds FileLocation from src/file_location.rs (struct fields as used
by the two source files under verification). -/
structure FileLocation where
  absolute_path : String
  relative_directory_to_content : String
  file_stem : String
  file_name : String
  extension : String
deriving DecidableEq, Repr

/-- Modelled from the spec: the Outcome taxonomy of
src/operation_result.rs (the file itself is not under src/); each
variant carries the file path and a human-readable reason, matching the
ParseError::new(path, reason) style calls in the sources. -/
inductive OperationResult where
  | Skip (path reason : String)
  | Path (path reason : String)
  | Parse (path reason : String)
  | Io (path reason : String)
deriving DecidableEq, Repr

/-- Embeds the PageIndex struct from src/page_index.rs. -/
structure PageIndex where
  title : String
  href : String
  date : String
  content : String
  description : String
  categories : List String
  series : List String
  tags : List String
  keywords : List String
  draft : Bool
deriving DecidableEq, Repr

instance {ε α : Type} [DecidableEq ε] [DecidableEq α] : DecidableEq (Except ε α)
  | .ok a, .ok b =>
    if h : a = b then .isTrue (congrArg Except.ok h)
    else .isFalse (fun hc => h (Except.ok.inj hc))
  | .ok _, .error _ => .isFalse (fun hc => Except.noConfusion hc)
  | .error _, .ok _ => .isFalse (fun hc => Except.noConfusion hc)
  | .error e, .error f =>
    if h : e = f then .isTrue (congrArg Except.error h)
    else .isFalse (fun hc => h (Except.error.inj hc))

/-- Modelled from the spec: constants.rs is not under src/; the fence
literals match the in-repo test fixtures and the Hugo conventions the
spec describes. -/
def TOML_FENCE : String := "+++"

/-- Modelled from the spec: the YAML fence delimiter. -/
def YAML_FENCE : String := "---"

/-- Modelled from the spec: the markdown extension routed to the parser
chain (the in-repo test fixtures use extension md). -/
def MARKDOWN_EXTENSION : String := "md"

/-- Modelled from the spec: front-matter key names from constants.rs. -/
def DRAFT : String := "draft"

/-- Modelled from the spec: front-matter key for the title field. -/
def TITLE : String := "title"

/-- Modelled from the spec: front-matter key for the slug field. -/
def SLUG : String := "slug"

/-- Modelled from the spec: front-matter key for the date field. -/
def DATE : String := "date"

/-- Modelled from the spec: front-matter key for the description field. -/
def DESCRIPTION : String := "description"

/-- Modelled from the spec: front-matter key for the url field. -/
def URL : String := "url"

/-- Modelled from the spec: front-matter key for the categories list. -/
def CATEGORIES : String := "categories"

/-- Modelled from the spec: front-matter key for the series list. -/
def SERIES : String := "series"

/-- Modelled from the spec: front-matter key for the tags list. -/
def TAGS : String := "tags"

/-- Modelled from the spec: front-matter key for the keywords list. -/
def KEYWORDS : String := "keywords"

/-- Modelled from the spec: the empty string constant of constants.rs. -/
def EMPTY_STRING : String := ""

/-- Modelled from the spec: the forward slash constant of constants.rs. -/
def FORWARD_SLASH : String := "/"

/-- Embeds build_href from src/page_index.rs: explicit url verbatim,
else slash-wrapped slug, else slash-wrapped lowercased file stem, each
prefixed by the content-relative directory when non-empty. -/
def build_href (possible_slug : Option String) (possible_url : Option String)
    (file_location : FileLocation) : String :=
  match possible_url with
  | some url => url
  | none =>
    let relative_part :=
      if file_location.relative_directory_to_content = "" then EMPTY_STRING
      else FORWARD_SLASH ++ file_location.relative_directory_to_content
    match possible_slug with
    | some slug => relative_part ++ FORWARD_SLASH ++ slug ++ FORWARD_SLASH
    | none =>
      relative_part ++ FORWARD_SLASH ++
        RustStr.toLowercase file_location.file_stem ++ FORWARD_SLASH

/-- Embeds PageIndex::new from src/page_index.rs: missing title or date
is a Parse error naming the absolute path; title and date are trimmed;
description defaults to the empty string; href is derived by build_href. -/
def PageIndex.new (title slug date description : Option String)
    (categories series tags keywords : List String)
    (content : String) (file_location : FileLocation)
    (url : Option String) (draft : Bool) : Except OperationResult PageIndex :=
  match title with
  | none =>
    .error (.Parse file_location.absolute_path "Could not read title from front matter")
  | some t =>
    match date with
    | none =>
      .error (.Parse file_location.absolute_path "Could not read date from front matter")
    | some d =>
      .ok
        { title := RustStr.trim t
          date := RustStr.trim d
          description := description.getD ""
          categories := categories
          tags := tags
          series := series
          keywords := keywords
          href := build_href slug url file_location
          content := content
          draft := draft }

/-- Embeds the front_matter.get(KEY).and_then(Value::as_str) pattern used
for the five optional string fields in both dialect processors. -/
def extract_str (front_matter : Value) (key : String) : Option String :=
  (front_matter.get key).bind Value.as_str

/-- Embeds the draft extraction of both dialect processors:
get(DRAFT).and_then(Value::as_bool).unwrap_or(false). -/
def extract_draft (front_matter : Value) : Bool :=
  ((front_matter.get DRAFT).bind Value.as_bool).getD false

/-- Embeds the list-field extraction of both dialect processors:
get(KEY).and_then(as_array).unwrap_or(empty) then filter_map keeping only
string entries, each trimmed. -/
def extract_string_list (front_matter : Value) (key : String) : List String :=
  (((front_matter.get key).bind Value.as_array).getD []).filterMap
    (fun v => (Value.as_str v).map RustStr.trim)

/-- The segments of contents.trim().split(TOML_FENCE) in
process_md_toml_front_matter. -/
def tomlSegments (contents : String) : List String :=
  RustStr.splitOn (RustStr.trim contents) TOML_FENCE

/-- The trimmed second-to-last TOML split segment, the text handed to the
TOML parser. -/
def tomlFrontText (contents : String) : String :=
  RustStr.trim ((tomlSegments contents).getD ((tomlSegments contents).length - 2) "")

/-- The trimmed last TOML split segment, the body handed to the markdown
stripper. -/
def tomlBodyText (contents : String) : String :=
  RustStr.trim ((tomlSegments contents).getD ((tomlSegments contents).length - 1) "")

/-- Embeds process_md_toml_front_matter from src/traverse/traverser.rs.
The external TOML parser is the parseToml parameter (none models a parse
failure) and the markdown stripper is the stripMarkdown parameter. -/
def process_md_toml_front_matter (parseToml : String → Option Value)
    (stripMarkdown : String → String) (contents : String)
    (file_location : FileLocation) (drafts : Bool) :
    Except OperationResult PageIndex :=
  if (tomlSegments contents).length ≤ 1 then
    .error (.Parse file_location.absolute_path "Could not split on TOML fence.")
  else
    match parseToml (tomlFrontText contents) with
    | none =>
      .error (.Parse file_location.absolute_path "Could not parse TOML front matter.")
    | some front_matter =>
      if extract_draft front_matter && !drafts then
        .error (.Skip file_location.absolute_path "Is draft.")
      else
        PageIndex.new (extract_str front_matter TITLE) (extract_str front_matter SLUG)
          (extract_str front_matter DATE) (extract_str front_matter DESCRIPTION)
          (extract_string_list front_matter CATEGORIES)
          (extract_string_list front_matter SERIES)
          (extract_string_list front_matter TAGS)
          (extract_string_list front_matter KEYWORDS)
          (stripMarkdown (tomlBodyText contents)) file_location
          (extract_str front_matter URL) (extract_draft front_matter)

/-- The segments of contents.trim().split(YAML_FENCE) in
process_md_yaml_front_matter. -/
def yamlSegments (contents : String) : List String :=
  RustStr.splitOn (RustStr.trim contents) YAML_FENCE

/-- The trimmed second YAML split segment, the text handed to the YAML
loader. -/
def yamlFrontText (contents : String) : String :=
  RustStr.trim ((yamlSegments contents).getD 1 "")

/-- The trimmed last YAML split segment, the body handed to the markdown
stripper. -/
def yamlBodyText (contents : String) : String :=
  RustStr.trim ((yamlSegments contents).getD ((yamlSegments contents).length - 1) "")

/-- Embeds process_md_yaml_front_matter from src/traverse/traverser.rs.
The external YAML loader is the loadYaml parameter (it yields the list
of loaded documents, none models a scan error); taking the first loaded
document embeds the front_matter.first() call. -/
def process_md_yaml_front_matter (loadYaml : String → Option (List Value))
    (stripMarkdown : String → String) (contents : String)
    (file_location : FileLocation) (drafts : Bool) :
    Except OperationResult PageIndex :=
  if (yamlSegments contents).length ≤ 1 then
    .error (.Parse file_location.absolute_path "Could not split on YAML fence.")
  else
    match loadYaml (yamlFrontText contents) with
    | none =>
      .error (.Parse file_location.absolute_path "Could not parse YAML front matter.")
    | some docs =>
      match docs.head? with
      | none =>
        .error (.Parse file_location.absolute_path "Could not parse YAML front matter.")
      | some front_matter =>
        if extract_draft front_matter && !drafts then
          .error (.Skip file_location.absolute_path "Is draft.")
        else
          PageIndex.new (extract_str front_matter TITLE) (extract_str front_matter SLUG)
            (extract_str front_matter DATE) (extract_str front_matter DESCRIPTION)
            (extract_string_list front_matter CATEGORIES)
            (extract_string_list front_matter SERIES)
            (extract_string_list front_matter TAGS)
            (extract_string_list front_matter KEYWORDS)
            (stripMarkdown (yamlBodyText contents)) file_location
            (extract_str front_matter URL) (extract_draft front_matter)

/-- Embeds the first_line computation of process_md_file: the first line
of the contents whose trim is non-empty. -/
def first_line (contents : String) : Option String :=
  (RustStr.lines contents).find? (fun l => !(RustStr.isEmpty (RustStr.trim l)))

/-- The first character of the first non-blank line (of the empty string
when there is none), the single datum the dialect classification
inspects. -/
def first_line_head (contents : String) : Option Char :=
  ((first_line contents).getD "").data.head?

/-- Embeds process_md_file from src/traverse/traverser.rs, after the file
read (file IO is outside the embedding; contents is the text read): the
dialect dispatch on the first character of the first non-blank line. -/
def process_md_file (parseToml : String → Option Value)
    (loadYaml : String → Option (List Value)) (stripMarkdown : String → String)
    (contents : String) (file_location : FileLocation) (drafts : Bool) :
    Except OperationResult PageIndex :=
  match first_line_head contents with
  | some c =>
    if c = '+' then process_md_toml_front_matter parseToml stripMarkdown contents file_location drafts
    else if c = '-' then process_md_yaml_front_matter loadYaml stripMarkdown contents file_location drafts
    else .error (.Parse file_location.absolute_path "Could not determine file front matter type.")
  | none =>
    .error (.Parse file_location.absolute_path "Could not determine file front matter type.")

/-- Embeds process_file from src/traverse/traverser.rs: only the markdown
extension is routed to the parser chain. -/
def process_file (parseToml : String → Option Value)
    (loadYaml : String → Option (List Value)) (stripMarkdown : String → String)
    (contents : String) (file_location : FileLocation) (drafts : Bool) :
    Except OperationResult PageIndex :=
  if file_location.extension = MARKDOWN_EXTENSION then
    process_md_file parseToml loadYaml stripMarkdown contents file_location drafts
  else
    .error (.Path file_location.absolute_path "Not a compatible file extension.")

/-- Embeds the drain loop of Traverser::traverse_files in
src/traverse/traverser.rs, as a function of the sequence of outcomes
received on the channel: Skip outcomes are only logged and dropped; the
other four kinds are pushed onto the returned index. -/
def drain_results : List (Except OperationResult PageIndex) →
    List (Except OperationResult PageIndex)
  | [] => []
  | result :: rest =>
    match result with
    | .error (.Skip _ _) => drain_results rest
    | .error (.Path _ _) => result :: drain_results rest
    | .error (.Parse _ _) => result :: drain_results rest
    | .error (.Io _ _) => result :: drain_results rest
    | .ok _ => result :: drain_results rest

/-- Tests whether an outcome is a Skip outcome. -/
def is_skip_result : Except OperationResult PageIndex → Bool
  | .error (.Skip _ _) => true
  | _ => false

/-- Spec-side restatement of the href derivation, following the words of
the specification (section 4.3) step by step, to be compared with the
build_href embedded from the source. -/
def href_spec (slug url : Option String) (loc : FileLocation) : String :=
  match url with
  | some u => u
  | none =>
    let relativePart :=
      if loc.relative_directory_to_content = "" then ""
      else "/" ++ loc.relative_directory_to_content
    match slug with
    | some s => relativePart ++ "/" ++ s ++ "/"
    | none => relativePart ++ "/" ++ RustStr.toLowercase loc.file_stem ++ "/"

/-- The FileLocation fixture of the in-repo tests, reused as the concrete
input of the witnesses below. -/
def exampleLocation : FileLocation :=
  { extension := "md"
    relative_directory_to_content := "post"
    absolute_path := "/home/blog/content/post/example.md"
    file_stem := "example"
    file_name := "example.md" }

/-- A concrete instance of the opaque TOML parser collaborator: parses
exactly the metadata block of the witness document for the draft
short-circuit. -/
def tomlParseFixture : String → Option Value := fun s =>
  if s = "draft = true" then some (Value.table [(DRAFT, Value.boolean true)]) else none

/-- A concrete instance of the opaque YAML loader collaborator: loads
exactly the metadata block of the witness document for the draft
short-circuit. -/
def yamlLoadFixture : String → Option (List Value) := fun s =>
  if s = "draft: true" then some [Value.table [(DRAFT, Value.boolean true)]] else none

/-- The metadata tree of the unterminated-fence fixture. -/
def fmUnterminated : Value :=
  Value.table [(DRAFT, Value.boolean false), (TITLE, Value.str "T"), (DATE, Value.str "D")]

/-- A concrete instance of the opaque YAML loader collaborator: loads
exactly the single segment of the unterminated-fence fixture. -/
def yamlLoadUnterminated : String → Option (List Value) := fun s =>
  if s = "draft: false\ntitle: T\ndate: D" then some [fmUnterminated] else none

/-- A concrete instance of the opaque TOML parser collaborator whose
title entry is an integer rather than a string. -/
def tomlParseNonStringTitle : String → Option Value := fun s =>
  if s = "title = 3" then
    some (Value.table [(TITLE, Value.integer 3), (DATE, Value.str "D")])
  else none

/-- A concrete instance of the opaque TOML parser collaborator whose
draft entry is the string true rather than a boolean. -/
def tomlParseNonBoolDraft : String → Option Value := fun s =>
  if s = "draft = \"true\"" then
    some (Value.table [(DRAFT, Value.str "true"), (TITLE, Value.str "T"), (DATE, Value.str "D")])
  else none

/-- Every outcome of PageIndex construction is an ok outcome or a Parse
error, never a Skip: the draft policy never originates there. -/
theorem PageIndex.new_ne_skip (title slug date description : Option String)
    (categories series tags keywords : List String) (content : String)
    (loc : FileLocation) (url : Option String) (draft : Bool) (path reason : String) :
    PageIndex.new title slug date description categories series tags keywords
        content loc url draft ≠ .error (.Skip path reason) := by
  cases title <;> cases date <;> simp [PageIndex.new]

/-- C1, counterexample: a title consisting only of whitespace does yield
a successfully constructed PageIndex, whose title field is the empty
string; the claimed non-emptiness invariant fails on the code. -/
theorem C1_counterexample :
    PageIndex.new (some "   ") none (some "2018-01-01") none [] [] [] [] ""
        exampleLocation none false =
      .ok { title := "", href := "/post/example/", date := "2018-01-01", content := "",
            description := "", categories := [], series := [], tags := [],
            keywords := [], draft := false } := by
  decide

/-- C1, amended: for every successfully constructed PageIndex the title
and the date were present in the front matter, and the stored fields
equal their trimmed source values; non-emptiness after trimming is not
enforced, so a whitespace-only title or date yields a successful
PageIndex with an empty field. -/
theorem C1_title_date_present (title slug date description : Option String)
    (categories series tags keywords : List String) (content : String)
    (loc : FileLocation) (url : Option String) (draft : Bool) (p : PageIndex)
    (h : PageIndex.new title slug date description categories series tags keywords
        content loc url draft = .ok p) :
    title ≠ none ∧ date ≠ none ∧
      p.title = RustStr.trim (title.getD "") ∧ p.date = RustStr.trim (date.getD "") := by
  cases title with
  | none => simp [PageIndex.new] at h
  | some t =>
    cases date with
    | none => simp [PageIndex.new] at h
    | some d =>
      simp only [PageIndex.new, Except.ok.injEq] at h
      subst h
      simp

/-- Witness for C1: the amended statement holds at a concrete
construction whose title and date carry surrounding whitespace. -/
theorem C1_witness :
    (some "  A  " ≠ (none : Option String)) ∧ ((some " 2019 " : Option String) ≠ none) ∧
      (PageIndex.mk "A" "/post/example/" "2019" "body" "desc" [] [] [] [] false).title =
        RustStr.trim ((some "  A  ").getD "") ∧
      (PageIndex.mk "A" "/post/example/" "2019" "body" "desc" [] [] [] [] false).date =
        RustStr.trim ((some " 2019 ").getD "") :=
  C1_title_date_present (some "  A  ") none (some " 2019 ") (some "desc") [] [] [] []
    "body" exampleLocation none false
    (PageIndex.mk "A" "/post/example/" "2019" "body" "desc" [] [] [] [] false)
    (by decide)

/-- C2, confirmed: the href derivation of the source follows the spec
precedence exactly: an explicit url verbatim; else the slug, never
case-altered, between the relative part and a trailing slash; else the
lowercased file stem in the same shape; the relative part is empty for a
root-level file and slash-prefixed otherwise. -/
theorem C2_href_derivation (slug url : Option String) (loc : FileLocation) :
    build_href slug url loc = href_spec slug url loc := by
  cases url <;> cases slug <;>
    simp [build_href, href_spec, EMPTY_STRING, FORWARD_SLASH]

/-- C5, confirmed: building a PageIndex with an absent title fails with a
Parse error naming the absolute path; with a present title and an absent
date it fails likewise for the date; and on success the description
field equals the given description, defaulting to the empty string. -/
theorem C5_required_fields :
    (∀ (slug date description : Option String)
        (categories series tags keywords : List String) (content : String)
        (loc : FileLocation) (url : Option String) (draft : Bool),
      PageIndex.new none slug date description categories series tags keywords
          content loc url draft =
        .error (.Parse loc.absolute_path "Could not read title from front matter")) ∧
    (∀ (t : String) (slug description : Option String)
        (categories series tags keywords : List String) (content : String)
        (loc : FileLocation) (url : Option String) (draft : Bool),
      PageIndex.new (some t) slug none description categories series tags keywords
          content loc url draft =
        .error (.Parse loc.absolute_path "Could not read date from front matter")) ∧
    (∀ (title slug date description : Option String)
        (categories series tags keywords : List String) (content : String)
        (loc : FileLocation) (url : Option String) (draft : Bool) (p : PageIndex),
      PageIndex.new title slug date description categories series tags keywords
          content loc url draft = .ok p →
        p.description = description.getD "") := by
  refine ⟨fun _ _ _ _ _ _ _ _ _ _ _ => rfl, fun _ _ _ _ _ _ _ _ _ _ _ => rfl, ?_⟩
  intro title slug date description categories series tags keywords content loc url draft p h
  cases title with
  | none => simp [PageIndex.new] at h
  | some t =>
    cases date with
    | none => simp [PageIndex.new] at h
    | some d =>
      simp only [PageIndex.new, Except.ok.injEq] at h
      subst h
      rfl

/-- Witness for C5: the success clause at a concrete construction with a
present description. -/
theorem C5_witness :
    (PageIndex.mk "A" "/post/example/" "2019" "body" "desc" [] [] [] [] false).description =
      (some "desc").getD "" :=
  C5_required_fields.2.2 (some "  A  ") none (some " 2019 ") (some "desc") [] [] [] []
    "body" exampleLocation none false
    (PageIndex.mk "A" "/post/example/" "2019" "body" "desc" [] [] [] [] false)
    (by decide)

/-- C7, counterexample: a whitespace-only string entry in a list field
survives extraction as the empty string, so not every surviving entry is
non-empty. -/
theorem C7_counterexample :
    extract_string_list (Value.table [(TAGS, Value.arr [Value.str "   "])]) TAGS = [""] := by
  decide

/-- C7, amended: each of the four list fields is read by the same
extraction: an absent field defaults to the empty list, a present array
keeps exactly its string entries with each entry trimmed (non-string
entries are silently dropped), and every surviving entry is a trimmed
string, possibly empty: empty entries are not filtered out. -/
theorem C7_list_extraction (fm : Value) (key : String) :
    (fm.get key = none → extract_string_list fm key = []) ∧
    (∀ xs, fm.get key = some (Value.arr xs) →
      extract_string_list fm key =
        xs.filterMap (fun v => (Value.as_str v).map RustStr.trim)) ∧
    (∀ s, s ∈ extract_string_list fm key → ∃ orig, s = RustStr.trim orig) := by
  refine ⟨fun h => ?_, fun xs h => ?_, fun s hs => ?_⟩
  · simp [extract_string_list, h]
  · simp [extract_string_list, h, Value.as_array]
  · unfold extract_string_list at hs
    rw [List.mem_filterMap] at hs
    obtain ⟨v, _, hv⟩ := hs
    cases hvs : Value.as_str v with
    | none => rw [hvs] at hv; simp at hv
    | some o =>
      rw [hvs] at hv
      simp at hv
      exact ⟨o, hv.symm⟩

/-- Witness for C7: the amended statement at a concrete array holding a
padded string entry and an integer entry: the integer is dropped and the
string is trimmed. -/
theorem C7_witness :
    extract_string_list (Value.table [(TAGS, Value.arr [Value.str " a ", Value.integer 3])])
      TAGS = ["a"] := by
  have h :=
    (C7_list_extraction (Value.table [(TAGS, Value.arr [Value.str " a ", Value.integer 3])])
        TAGS).2.1 [Value.str " a ", Value.integer 3] rfl
  rw [h]
  decide

/-- C8, confirmed: draining the result channel retains exactly the
non-Skip outcomes, in arrival order with multiplicity, each unchanged
and hence still carrying its kind tag; Skip outcomes are dropped. -/
theorem C8_drain_partitions (results : List (Except OperationResult PageIndex)) :
    drain_results results = results.filter (fun r => !is_skip_result r) := by
  induction results with
  | nil => rfl
  | cons r rest ih =>
    cases r with
    | ok p => simp [drain_results, is_skip_result, List.filter_cons, ih]
    | error e =>
      cases e <;> simp [drain_results, is_skip_result, List.filter_cons, ih]

/-- C3, confirmed: in both dialects, once the metadata block parses and
marks draft as true, processing with the draft-inclusion policy off
yields the Skip outcome, whatever the other fields hold: the draft check
precedes every other field validation, so a policy-excluded draft never
becomes a Parse error. -/
theorem C3_draft_skip :
    (∀ (parseToml : String → Option Value) (stripMarkdown : String → String)
        (contents : String) (loc : FileLocation) (fm : Value),
      1 < (tomlSegments contents).length →
      parseToml (tomlFrontText contents) = some fm →
      (fm.get DRAFT).bind Value.as_bool = some true →
      process_md_toml_front_matter parseToml stripMarkdown contents loc false =
        .error (.Skip loc.absolute_path "Is draft.")) ∧
    (∀ (loadYaml : String → Option (List Value)) (stripMarkdown : String → String)
        (contents : String) (loc : FileLocation) (docs : List Value) (fm : Value),
      1 < (yamlSegments contents).length →
      loadYaml (yamlFrontText contents) = some docs →
      docs.head? = some fm →
      (fm.get DRAFT).bind Value.as_bool = some true →
      process_md_yaml_front_matter loadYaml stripMarkdown contents loc false =
        .error (.Skip loc.absolute_path "Is draft.")) := by
  constructor
  · intro parseToml stripMarkdown contents loc fm hlen hparse hdraft
    unfold process_md_toml_front_matter
    rw [if_neg (by omega), hparse]
    simp [extract_draft, hdraft]
  · intro loadYaml stripMarkdown contents loc docs fm hlen hload hfm hdraft
    unfold process_md_yaml_front_matter
    rw [if_neg (by omega), hload]
    simp only []
    rw [hfm]
    simp [extract_draft, hdraft]

/-- Witness for C3: a concrete draft document in each dialect, processed
with the draft policy off, yields the Skip outcome even though title and
date are absent from its metadata. -/
theorem C3_witness :
    process_md_toml_front_matter tomlParseFixture (fun s => s)
        "+++\ndraft = true\n+++\nbody" exampleLocation false =
      .error (.Skip exampleLocation.absolute_path "Is draft.") ∧
    process_md_yaml_front_matter yamlLoadFixture (fun s => s)
        "---\ndraft: true\n---\nbody" exampleLocation false =
      .error (.Skip exampleLocation.absolute_path "Is draft.") :=
  ⟨C3_draft_skip.1 tomlParseFixture (fun s => s) "+++\ndraft = true\n+++\nbody"
      exampleLocation (Value.table [(DRAFT, Value.boolean true)])
      (by decide) rfl rfl,
   C3_draft_skip.2 yamlLoadFixture (fun s => s) "---\ndraft: true\n---\nbody"
      exampleLocation [Value.table [(DRAFT, Value.boolean true)]]
      (Value.table [(DRAFT, Value.boolean true)])
      (by decide) rfl rfl rfl⟩

/-- C6, confirmed: dialect classification is decided by the first
character of the first non-blank line alone: a leading plus routes the
document to the TOML processor, a leading minus to the YAML processor,
and any other leading character, or a file with no non-blank line at
all, yields the could-not-determine Parse error. -/
theorem C6_classification (parseToml : String → Option Value)
    (loadYaml : String → Option (List Value)) (stripMarkdown : String → String)
    (contents : String) (loc : FileLocation) (drafts : Bool) :
    (first_line_head contents = some '+' →
      process_md_file parseToml loadYaml stripMarkdown contents loc drafts =
        process_md_toml_front_matter parseToml stripMarkdown contents loc drafts) ∧
    (first_line_head contents = some '-' →
      process_md_file parseToml loadYaml stripMarkdown contents loc drafts =
        process_md_yaml_front_matter loadYaml stripMarkdown contents loc drafts) ∧
    (first_line_head contents ≠ some '+' → first_line_head contents ≠ some '-' →
      process_md_file parseToml loadYaml stripMarkdown contents loc drafts =
        .error (.Parse loc.absolute_path "Could not determine file front matter type.")) := by
  refine ⟨fun h => ?_, fun h => ?_, fun h1 h2 => ?_⟩
  · unfold process_md_file
    rw [h]
    rfl
  · unfold process_md_file
    rw [h]
    rfl
  · unfold process_md_file
    cases hc : first_line_head contents with
    | none => rfl
    | some c =>
      have hcp : c ≠ '+' := fun e => h1 (by rw [hc, e])
      have hcm : c ≠ '-' := fun e => h2 (by rw [hc, e])
      simp [hcp, hcm]

/-- Witness for C6: a document whose first non-blank line starts with a
plus is routed to the TOML processor. -/
theorem C6_witness :
    process_md_file (fun _ => none) (fun _ => none) (fun s => s)
        "\n  \n+++\ntitle\n+++\nx" exampleLocation false =
      process_md_toml_front_matter (fun _ => none) (fun s => s)
        "\n  \n+++\ntitle\n+++\nx" exampleLocation false :=
  (C6_classification (fun _ => none) (fun _ => none) (fun s => s)
      "\n  \n+++\ntitle\n+++\nx" exampleLocation false).1 (by decide)

/-- C4, counterexample: a YAML document with an opening fence and no
closing fence whose single segment parses as valid metadata does
succeed, but its content field is the markdown-stripped metadata segment
itself, not the empty string. -/
theorem C4_counterexample :
    process_md_yaml_front_matter yamlLoadUnterminated (fun s => s)
        "---\ndraft: false\ntitle: T\ndate: D" exampleLocation false =
      .ok { title := "T", href := "/post/example/", date := "D",
            content := "draft: false\ntitle: T\ndate: D", description := "",
            categories := [], series := [], tags := [], keywords := [],
            draft := false } ∧
    "draft: false\ntitle: T\ndate: D" ≠ "" := by
  exact ⟨by decide, by decide⟩

/-- C4, amended: a YAML document whose fence split yields exactly two
segments (an opening fence and no closing fence), whose single remaining
segment loads as valid metadata with title and date present and the
draft short-circuit not taken, is processed successfully; the resulting
content field equals the markdown stripper applied to that same trimmed
metadata segment (the last split segment coincides with it), not the
empty string in general. -/
theorem C4_unterminated_lenient (loadYaml : String → Option (List Value))
    (stripMarkdown : String → String) (contents : String) (loc : FileLocation)
    (drafts : Bool) (docs : List Value) (fm : Value) (t d : String)
    (hlen : (yamlSegments contents).length = 2)
    (hload : loadYaml (yamlFrontText contents) = some docs)
    (hfm : docs.head? = some fm)
    (hdraft : (extract_draft fm && !drafts) = false)
    (htitle : extract_str fm TITLE = some t)
    (hdate : extract_str fm DATE = some d) :
    ∃ p, process_md_yaml_front_matter loadYaml stripMarkdown contents loc drafts = .ok p ∧
      p.content = stripMarkdown (yamlFrontText contents) := by
  have hbody : yamlBodyText contents = yamlFrontText contents := by
    unfold yamlBodyText yamlFrontText
    rw [hlen]
  unfold process_md_yaml_front_matter
  rw [if_neg (by omega), hload]
  simp only []
  rw [hfm]
  simp only [hdraft, Bool.false_eq_true, if_false]
  rw [htitle, hdate, hbody]
  exact ⟨_, rfl, rfl⟩

/-- Witness for C4: the amended statement at the concrete
unterminated-fence fixture. -/
theorem C4_witness :
    ∃ p, process_md_yaml_front_matter yamlLoadUnterminated (fun s => s)
        "---\ndraft: false\ntitle: T\ndate: D" exampleLocation false = .ok p ∧
      p.content = (fun s => s) (yamlFrontText "---\ndraft: false\ntitle: T\ndate: D") :=
  C4_unterminated_lenient yamlLoadUnterminated (fun s => s)
    "---\ndraft: false\ntitle: T\ndate: D" exampleLocation false
    [fmUnterminated] fmUnterminated "T" "D"
    (by decide) rfl rfl rfl rfl rfl

/-- C9, confirmed: a title or date bound to a non-string value extracts
as none, exactly as if absent, and processing then fails with the
corresponding missing-title or missing-date Parse error in both
dialects, not with a distinct type error. -/
theorem C9_nonstring_title_date :
    (∀ (fm : Value) (key : String) (v : Value),
      fm.get key = some v → Value.as_str v = none → extract_str fm key = none) ∧
    (∀ (parseToml : String → Option Value) (stripMarkdown : String → String)
        (contents : String) (loc : FileLocation) (drafts : Bool) (fm v : Value),
      1 < (tomlSegments contents).length →
      parseToml (tomlFrontText contents) = some fm →
      (extract_draft fm && !drafts) = false →
      fm.get TITLE = some v → Value.as_str v = none →
      process_md_toml_front_matter parseToml stripMarkdown contents loc drafts =
        .error (.Parse loc.absolute_path "Could not read title from front matter")) ∧
    (∀ (parseToml : String → Option Value) (stripMarkdown : String → String)
        (contents : String) (loc : FileLocation) (drafts : Bool) (fm : Value)
        (t : String) (v : Value),
      1 < (tomlSegments contents).length →
      parseToml (tomlFrontText contents) = some fm →
      (extract_draft fm && !drafts) = false →
      extract_str fm TITLE = some t →
      fm.get DATE = some v → Value.as_str v = none →
      process_md_toml_front_matter parseToml stripMarkdown contents loc drafts =
        .error (.Parse loc.absolute_path "Could not read date from front matter")) ∧
    (∀ (loadYaml : String → Option (List Value)) (stripMarkdown : String → String)
        (contents : String) (loc : FileLocation) (drafts : Bool)
        (docs : List Value) (fm v : Value),
      1 < (yamlSegments contents).length →
      loadYaml (yamlFrontText contents) = some docs →
      docs.head? = some fm →
      (extract_draft fm && !drafts) = false →
      fm.get TITLE = some v → Value.as_str v = none →
      process_md_yaml_front_matter loadYaml stripMarkdown contents loc drafts =
        .error (.Parse loc.absolute_path "Could not read title from front matter")) ∧
    (∀ (loadYaml : String → Option (List Value)) (stripMarkdown : String → String)
        (contents : String) (loc : FileLocation) (drafts : Bool)
        (docs : List Value) (fm : Value) (t : String) (v : Value),
      1 < (yamlSegments contents).length →
      loadYaml (yamlFrontText contents) = some docs →
      docs.head? = some fm →
      (extract_draft fm && !drafts) = false →
      extract_str fm TITLE = some t →
      fm.get DATE = some v → Value.as_str v = none →
      process_md_yaml_front_matter loadYaml stripMarkdown contents loc drafts =
        .error (.Parse loc.absolute_path "Could not read date from front matter")) := by
  have hnone : ∀ (fm : Value) (key : String) (v : Value),
      fm.get key = some v → Value.as_str v = none → extract_str fm key = none := by
    intro fm key v hv hvs
    unfold extract_str
    rw [hv]
    exact hvs
  refine ⟨hnone, ?_, ?_, ?_, ?_⟩
  · intro parseToml stripMarkdown contents loc drafts fm v hlen hparse hskip hv hvs
    unfold process_md_toml_front_matter
    rw [if_neg (by omega), hparse]
    simp only [hskip, Bool.false_eq_true, if_false]
    rw [hnone fm TITLE v hv hvs]
    rfl
  · intro parseToml stripMarkdown contents loc drafts fm t v hlen hparse hskip ht hv hvs
    unfold process_md_toml_front_matter
    rw [if_neg (by omega), hparse]
    simp only [hskip, Bool.false_eq_true, if_false]
    rw [ht, hnone fm DATE v hv hvs]
    rfl
  · intro loadYaml stripMarkdown contents loc drafts docs fm v hlen hload hfm hskip hv hvs
    unfold process_md_yaml_front_matter
    rw [if_neg (by omega), hload]
    simp only []
    rw [hfm]
    simp only [hskip, Bool.false_eq_true, if_false]
    rw [hnone fm TITLE v hv hvs]
    rfl
  · intro loadYaml stripMarkdown contents loc drafts docs fm t v hlen hload hfm hskip ht hv hvs
    unfold process_md_yaml_front_matter
    rw [if_neg (by omega), hload]
    simp only []
    rw [hfm]
    simp only [hskip, Bool.false_eq_true, if_false]
    rw [ht, hnone fm DATE v hv hvs]
    rfl

/-- Witness for C9: a concrete TOML document whose title is the integer
three fails with the missing-title Parse error. -/
theorem C9_witness :
    process_md_toml_front_matter tomlParseNonStringTitle (fun s => s)
        "+++\ntitle = 3\n+++\nbody" exampleLocation false =
      .error (.Parse exampleLocation.absolute_path "Could not read title from front matter") :=
  C9_nonstring_title_date.2.1 tomlParseNonStringTitle (fun s => s)
    "+++\ntitle = 3\n+++\nbody" exampleLocation false
    (Value.table [(TITLE, Value.integer 3), (DATE, Value.str "D")]) (Value.integer 3)
    (by decide) rfl rfl rfl rfl

/-- C10, confirmed: a draft field bound to a non-boolean value is read as
false in both dialects: the extracted draft flag is false, the outcome
is identical with the draft policy on or off, and the document is never
skipped on account of its draft field. -/
theorem C10_nonbool_draft :
    (∀ (fm v : Value),
      fm.get DRAFT = some v → Value.as_bool v = none → extract_draft fm = false) ∧
    (∀ (parseToml : String → Option Value) (stripMarkdown : String → String)
        (contents : String) (loc : FileLocation) (fm v : Value),
      1 < (tomlSegments contents).length →
      parseToml (tomlFrontText contents) = some fm →
      fm.get DRAFT = some v → Value.as_bool v = none →
      process_md_toml_front_matter parseToml stripMarkdown contents loc false =
          process_md_toml_front_matter parseToml stripMarkdown contents loc true ∧
        ∀ path reason,
          process_md_toml_front_matter parseToml stripMarkdown contents loc false ≠
            .error (.Skip path reason)) ∧
    (∀ (loadYaml : String → Option (List Value)) (stripMarkdown : String → String)
        (contents : String) (loc : FileLocation) (docs : List Value) (fm v : Value),
      1 < (yamlSegments contents).length →
      loadYaml (yamlFrontText contents) = some docs →
      docs.head? = some fm →
      fm.get DRAFT = some v → Value.as_bool v = none →
      process_md_yaml_front_matter loadYaml stripMarkdown contents loc false =
          process_md_yaml_front_matter loadYaml stripMarkdown contents loc true ∧
        ∀ path reason,
          process_md_yaml_front_matter loadYaml stripMarkdown contents loc false ≠
            .error (.Skip path reason)) := by
  have hfalse : ∀ (fm v : Value),
      fm.get DRAFT = some v → Value.as_bool v = none → extract_draft fm = false := by
    intro fm v hv hvs
    unfold extract_draft
    rw [hv]
    simp [hvs]
  refine ⟨hfalse, ?_, ?_⟩
  · intro parseToml stripMarkdown contents loc fm v hlen hparse hv hvs
    have hd : extract_draft fm = false := hfalse fm v hv hvs
    have hle : ¬ (tomlSegments contents).length ≤ 1 := by omega
    constructor
    · unfold process_md_toml_front_matter
      rw [if_neg hle, if_neg hle, hparse]
      simp [hd]
    · intro path reason
      unfold process_md_toml_front_matter
      rw [if_neg (by omega), hparse]
      simp only [hd, Bool.false_and, Bool.false_eq_true, if_false]
      exact PageIndex.new_ne_skip _ _ _ _ _ _ _ _ _ _ _ _ path reason
  · intro loadYaml stripMarkdown contents loc docs fm v hlen hload hfm hv hvs
    have hd : extract_draft fm = false := hfalse fm v hv hvs
    have hle : ¬ (yamlSegments contents).length ≤ 1 := by omega
    constructor
    · unfold process_md_yaml_front_matter
      rw [if_neg hle, if_neg hle, hload]
      simp only []
      rw [hfm]
      simp [hd]
    · intro path reason
      unfold process_md_yaml_front_matter
      rw [if_neg (by omega), hload]
      simp only []
      rw [hfm]
      simp only [hd, Bool.false_and, Bool.false_eq_true, if_false]
      exact PageIndex.new_ne_skip _ _ _ _ _ _ _ _ _ _ _ _ path reason

/-- Witness for C10: a concrete TOML document whose draft field is the
string true is processed identically whether or not drafts are
included. -/
theorem C10_witness :
    process_md_toml_front_matter tomlParseNonBoolDraft (fun s => s)
        "+++\ndraft = \"true\"\n+++\nbody" exampleLocation false =
      process_md_toml_front_matter tomlParseNonBoolDraft (fun s => s)
        "+++\ndraft = \"true\"\n+++\nbody" exampleLocation true :=
  (C10_nonbool_draft.2.1 tomlParseNonBoolDraft (fun s => s)
    "+++\ndraft = \"true\"\n+++\nbody" exampleLocation
    (Value.table [(DRAFT, Value.str "true"), (TITLE, Value.str "T"), (DATE, Value.str "D")])
    (Value.str "true") (by decide) rfl rfl rfl).1

end HugoToJson
